import Mathlib

/-!
Verification development for the `generic-lambda-websocket` gateway.

The definitions below are a shallow embedding of the TypeScript sources:
  * `src/services/auth.service.ts` (JWKS cache, token validation,
    token extraction, connection authentication),
  * `src/handlers/connect.ts` (the `$connect` handler),
  * `src/services/message.service.ts` (message routing / dual delivery),
  * `src/config/config.ts`.

External collaborators (the identity provider's key endpoint, the push
channel, the registry) are modelled as explicit parameters and state, so
all effects - key fetches, registry writes, pushes - are visible in the
return values.  Timestamps are `Nat` (milliseconds, as in `Date.now()`).
-/

namespace Gateway

/-- A JSON Web Key, identified by its `kid`.  `pem` stands for the
verification material produced by `jwkToPem` (modelled as a projection). -/
structure Jwk where
  kid : String
  pem : String
deriving DecidableEq, Repr

/-- The process-wide JWKS cache entry (`JwksCache` in `auth.service.ts`):
the cached keys and the `Date.now()` timestamp of the fetch. -/
structure JwksCache where
  keys : List Jwk
  timestamp : Nat
deriving DecidableEq, Repr

/-- Cache TTL - 24 hours in milliseconds (`JWKS_CACHE_TTL`). -/
def JWKS_CACHE_TTL : Nat := 24 * 60 * 60 * 1000

/-- Outcome of one `axios.get` of the JWKS endpoint, supplied by the
environment: either a key list or a network/HTTP failure. -/
inductive FetchOutcome
  | success (keys : List Jwk)
  | failure
deriving DecidableEq, Repr

/-- The mutable state surrounding `getJwks`: the global `jwksCache`
variable plus an instrumentation counter of fetches actually performed. -/
structure JwksState where
  cache : Option JwksCache
  fetchCount : Nat
deriving DecidableEq, Repr

/-- The fetch-and-update branch of `getJwks` (the `try`/`catch` block):
on success the cache is replaced by the fetched keys stamped with `now`;
on failure the error `"Failed to retrieve JWKS"` is thrown and the cache
is left as it was.  Either way one fetch was performed. -/
def getJwksFetch (fetch : FetchOutcome) (now : Nat) (s : JwksState) :
    Except String (List Jwk) × JwksState :=
  match fetch with
  | FetchOutcome.success keys =>
      (Except.ok keys,
        { cache := some { keys := keys, timestamp := now },
          fetchCount := s.fetchCount + 1 })
  | FetchOutcome.failure =>
      (Except.error "Failed to retrieve JWKS",
        { s with fetchCount := s.fetchCount + 1 })

/-- `getJwks` from `auth.service.ts`: return the cached keys if the cache
exists and `now - timestamp < JWKS_CACHE_TTL`, otherwise fetch. -/
def getJwks (fetch : FetchOutcome) (now : Nat) (s : JwksState) :
    Except String (List Jwk) × JwksState :=
  match s.cache with
  | some c =>
      if now - c.timestamp < JWKS_CACHE_TTL then (Except.ok c.keys, s)
      else getJwksFetch fetch now s
  | none => getJwksFetch fetch now s

/-- The claims carried by a token (`sub`, `username`, `email`, `iss`,
`exp`).  `exp` is the expiry instant on the same clock as `now`. -/
structure TokenPayload where
  iss : String
  sub : String
  username : String
  email : String
  exp : Nat
deriving DecidableEq, Repr

/-- The result of `jwt.decode(token, { complete: true })`: the header's
`kid` (possibly absent) and `alg`, the payload, and `sigPem`, the
verification material the token's signature actually checks out
against (an abstract model of the cryptographic signature). -/
structure DecodedToken where
  kid : Option String
  alg : String
  payload : TokenPayload
  sigPem : String
deriving DecidableEq, Repr

/-- Modelled from the `jsonwebtoken` library's documented semantics of
`jwt.verify(token, pem, { issuer, algorithms: ["RS256"] })`: the token is
accepted iff its algorithm is RS256, its signature verifies under `pem`,
its `exp` has not passed (expired iff `exp <= now`, no grace window) and
its `iss` equals the expected issuer. -/
def jwtVerify (d : DecodedToken) (pem : String) (issuer : String) (now : Nat) :
    Except String TokenPayload :=
  if d.alg != "RS256" then Except.error "invalid algorithm"
  else if d.sigPem != pem then Except.error "invalid signature"
  else if d.payload.exp ≤ now then Except.error "jwt expired"
  else if d.payload.iss != issuer then Except.error "jwt issuer invalid"
  else Except.ok d.payload

/-- The configuration surface of `config.ts`.  `userPoolId` is modelled
from the spec: `auth.service.ts` reads `config.cognito.userPoolId`, a
field missing from the `config.ts` under `src/` - the spec lists
"provider region/issuer identifiers" as part of the configuration. -/
structure Config where
  connectionsTable : String
  connectionTtl : Nat
  region : String
  userPoolId : String
deriving DecidableEq, Repr

/-- The issuer URL validateToken passes to `jwt.verify`:
`https://cognito-idp.${region}.amazonaws.com/${userPoolId}`. -/
def issuerUrl (cfg : Config) : String :=
  "https://cognito-idp." ++ cfg.region ++ ".amazonaws.com/" ++ cfg.userPoolId

/-- `validateToken` from `auth.service.ts`.  `decode` models the library
function `jwt.decode` (returns `none` on an undecodable token).  All
thrown errors inside the `try` are wrapped as
`"Invalid token: " ++ message` by the `catch`; the empty-token guard
throws `"Token is required"` before the `try`, unwrapped. -/
def validateToken (cfg : Config) (decode : String → Option DecodedToken)
    (fetch : FetchOutcome) (now : Nat) (s : JwksState) (token : String) :
    Except String TokenPayload × JwksState :=
  if token = "" then (Except.error "Token is required", s)
  else
    match decode token with
    | none => (Except.error "Invalid token: Invalid token format", s)
    | some d =>
      match d.kid with
      | none => (Except.error "Invalid token: Invalid token format", s)
      | some keyId =>
        match getJwks fetch now s with
        | (Except.error msg, s2) => (Except.error ("Invalid token: " ++ msg), s2)
        | (Except.ok jwks, s2) =>
          match jwks.find? (fun k => k.kid == keyId) with
          | none => (Except.error "Invalid token: No matching key found in JWKS", s2)
          | some matchingKey =>
            match jwtVerify d matchingKey.pem (issuerUrl cfg) now with
            | Except.error m => (Except.error ("Invalid token: " ++ m), s2)
            | Except.ok verified => (Except.ok verified, s2)

/-- The `http` sub-object of an API Gateway v2 request context. -/
structure HttpCtx where
  path : Option String
deriving DecidableEq, Repr

/-- The request context of an API Gateway WebSocket event: the
transport-assigned connection id, the domain/stage context, and the
optional `http` object used by the path-based token fallback. -/
structure RequestContext where
  connectionId : String
  domainName : Option String
  stage : Option String
  http : Option HttpCtx
deriving DecidableEq, Repr

/-- The fields of an API Gateway WebSocket event that the auth code
reads.  An absent object and an absent field are collapsed to `none`
(both are falsy in the JavaScript guards):
`queryStringToken` is `event.queryStringParameters?.token`,
`multiValueToken` is `event.multiValueQueryStringParameters?.token`
(a present field is an array, which is always truthy in JavaScript,
even when empty), and `authorizationHeader` is
`event.headers?.Authorization`. -/
structure ApiGatewayEvent where
  queryStringToken : Option String
  multiValueToken : Option (List String)
  requestContext : Option RequestContext
  authorizationHeader : Option String
deriving DecidableEq, Repr

/-- JavaScript truthiness of an optional string: a present, non-empty
string. -/
def jsTruthy : Option String → Bool
  | none => false
  | some s => s != ""

/-- One attempt of the regex `[?&]token=([^&]+)` at a fixed position:
given the characters after the `[?&]`, require the literal `token=` and
a non-empty capture of characters up to the next `&`. -/
def tokenParamTail (cs : List Char) : Option (List Char) :=
  if ("token=".toList).isPrefixOf cs then
    let cap := (cs.drop 6).takeWhile (fun ch => ch != '&')
    if cap.isEmpty then none else some cap
  else none

/-- Left-to-right scan of `url.match(/[?&]token=([^&]+)/)`: the first
position where the whole pattern (including its non-empty capture)
matches wins; a bare `?`/`&` that does not start a full match is
skipped over, as the JavaScript regex engine does. -/
def scanTokenParam : List Char → Option String
  | [] => none
  | c :: rest =>
    if c == '?' || c == '&' then
      match tokenParamTail rest with
      | some cap => some (String.mk cap)
      | none => scanTokenParam rest
    else scanTokenParam rest

/-- The Authorization-header step of `extractTokenFromEvent`: strip a
`"Bearer "` prefix when present, otherwise return the header itself;
absent or empty headers fall through to the final `return null`. -/
def extractFromHeader (e : ApiGatewayEvent) : Option String :=
  match e.authorizationHeader with
  | some h =>
    if h != "" then
      if ("Bearer ".toList).isPrefixOf h.toList then
        some (String.mk (h.toList.drop 7))
      else some h
    else none
  | none => none

/-- `extractTokenFromEvent` from `auth.service.ts`, with `decodeURI`
modelling the JavaScript builtin `decodeURIComponent`.  Sources are
tried in the source's order with its exact truthiness guards; note that
a *present* `multiValueQueryStringParameters.token` array short-circuits
with its first element (`undefined`, i.e. `none`, when the array is
empty), and a non-`Bearer` Authorization header is returned whole. -/
def extractTokenFromEvent (decodeURI : String → String) (e : ApiGatewayEvent) :
    Option String :=
  if jsTruthy e.queryStringToken then e.queryStringToken
  else
    match e.multiValueToken with
    | some l => l.head?
    | none =>
      match e.requestContext with
      | some ctx =>
        match ctx.http with
        | some h =>
          match h.path with
          | some p =>
            if p != "" then
              match scanTokenParam p.toList with
              | some cap => some (decodeURI cap)
              | none => extractFromHeader e
            else extractFromHeader e
          | none => extractFromHeader e
        | none => extractFromHeader e
      | none => extractFromHeader e

/-- The result value of `authenticateConnection`:
`{ authenticated, user?, error? }`. -/
structure AuthResult where
  authenticated : Bool
  user : Option TokenPayload
  error : Option String
deriving DecidableEq, Repr

/-- `authenticateConnection` from `auth.service.ts`: extract the token
(absent or empty means `authenticated=false` with the no-token error);
otherwise validate it, converting any thrown validation error into
`authenticated=false, error = message` (with the JavaScript fallback
`error.message || "Authentication failed"`).  The function is total: it
always returns an `AuthResult`, never an exception. -/
def authenticateConnection (cfg : Config) (decode : String → Option DecodedToken)
    (decodeURI : String → String) (fetch : FetchOutcome) (now : Nat)
    (s : JwksState) (e : ApiGatewayEvent) : AuthResult × JwksState :=
  match extractTokenFromEvent decodeURI e with
  | none =>
      ({ authenticated := false, user := none,
         error := some "No authentication token provided" }, s)
  | some t =>
    if t = "" then
      ({ authenticated := false, user := none,
         error := some "No authentication token provided" }, s)
    else
      match validateToken cfg decode fetch now s t with
      | (Except.ok payload, s2) =>
          ({ authenticated := true, user := some payload, error := none }, s2)
      | (Except.error msg, s2) =>
          ({ authenticated := false, user := none,
             error := some (if msg = "" then "Authentication failed" else msg) }, s2)

/-- The connection record the `$connect` handler persists
(`connection.model.ts` plus the fields passed in `connect.ts`). -/
structure ConnectionRecord where
  connectionId : String
  domainName : Option String
  stage : Option String
  timestamp : Nat
  userId : String
  userEmail : String
  isAuthenticated : Bool
deriving DecidableEq, Repr

/-- The connection info `extractConnectionInfo` returns. -/
structure ConnInfo where
  connectionId : String
  domainName : Option String
  stage : Option String
deriving DecidableEq, Repr

/-- Modelled from the spec: `extractConnectionInfo` from the missing
`src/utils/lambda.ts` reads the transport-assigned connection id and the
domain/stage context from the event's request context (spec section 6:
the connection-establishment event "carries a transport-assigned
connection id, domain/stage context").  A missing request context makes
it throw, which the handler's `catch` turns into a 500. -/
def extractConnectionInfo (e : ApiGatewayEvent) : Option ConnInfo :=
  e.requestContext.map fun ctx =>
    { connectionId := ctx.connectionId, domainName := ctx.domainName,
      stage := ctx.stage }

/-- An API Gateway Lambda proxy response (`createResponse` from the
missing `src/utils/lambda.ts`, modelled from the spec: "Response: a
status code - 200 permits the connection, any non-2xx ... causes the
transport to close it"). -/
structure LambdaResponse where
  statusCode : Nat
  message : String
deriving DecidableEq, Repr

/-- What one run of the `$connect` handler did: its response and the
sequence of registry put operations it invoked (`saveConnection`,
modelled from the spec as the registry's create operation). -/
structure ConnectOutcome where
  response : LambdaResponse
  writes : List ConnectionRecord
deriving DecidableEq, Repr

/-- The `$connect` handler from `src/handlers/connect.ts`.  `saveOk`
models whether the registry put succeeds (its failure is the handler's
`catch` path, a 500).  `writes` records every registry put invoked. -/
def connectHandler (cfg : Config) (decode : String → Option DecodedToken)
    (decodeURI : String → String) (fetch : FetchOutcome) (now : Nat)
    (s : JwksState) (saveOk : Bool) (e : ApiGatewayEvent) :
    ConnectOutcome × JwksState :=
  match extractConnectionInfo e with
  | none =>
      ({ response := { statusCode := 500, message := "Internal Server Error" },
         writes := [] }, s)
  | some info =>
    match authenticateConnection cfg decode decodeURI fetch now s e with
    | (auth, s2) =>
      if auth.authenticated then
        match auth.user with
        | some payload =>
          let record : ConnectionRecord :=
            { connectionId := info.connectionId,
              domainName := info.domainName, stage := info.stage,
              timestamp := now,
              userId := if payload.sub != "" then payload.sub else payload.username,
              userEmail := payload.email,
              isAuthenticated := true }
          if saveOk then
            ({ response := { statusCode := 200, message := "Connected" },
               writes := [record] }, s2)
          else
            ({ response := { statusCode := 500, message := "Internal Server Error" },
               writes := [record] }, s2)
        | none =>
            ({ response := { statusCode := 500, message := "Internal Server Error" },
               writes := [] }, s2)
      else
        ({ response := { statusCode := 401, message := "Unauthorized" },
           writes := [] }, s2)

/-- The registry of connection records, keyed by connection id
(the external DynamoDB table, one record per connection id). -/
abbrev Registry := List ConnectionRecord

/-- `getConnection` from the missing `src/services/connection.service.ts`,
modelled from the spec: registry `get(connectionId) -> Connection | none`. -/
def getConnection (r : Registry) (connectionId : String) : Option ConnectionRecord :=
  r.find? (fun c => c.connectionId == connectionId)

/-- An inbound WebSocket message (`message.model.ts`). -/
structure WebSocketMessage where
  action : String
  data : Option String
deriving DecidableEq, Repr

/-- An outbound WebSocket response (`message.model.ts`). -/
structure WebSocketResponse where
  message : String
  data : Option String
deriving DecidableEq, Repr

/-- What the transport reports for one push attempt: delivered, the
connection is gone, or some other failure. -/
inductive PushOutcome
  | delivered
  | gone
  | otherFailure (msg : String)
deriving DecidableEq, Repr

/-- Errors `handleMessage` can throw. -/
inductive MessageError
  | connectionNotFound (connectionId : String)
  | pushGone
  | pushFailed (msg : String)
deriving DecidableEq, Repr

/-- Modelled from the spec: `sendMessageToClient` from the missing
`src/utils/websocket.ts` pushes the payload to the connection id over
the push channel (`push(connectionId, bytes) -> ok | Gone`); `Gone`
surfaces as a thrown error.  No registry cleanup happens here - the
spec records the absence of Gone-eviction as a gap in the code. -/
def sendMessageToClient (push : PushOutcome) : Except MessageError Unit :=
  match push with
  | PushOutcome.delivered => Except.ok ()
  | PushOutcome.gone => Except.error MessageError.pushGone
  | PushOutcome.otherFailure m => Except.error (MessageError.pushFailed m)

/-- The full observable outcome of one `handleMessage` run: the value
returned or error thrown, the push attempts made (connection id and
payload), and the registry as it stands afterwards. -/
structure MessageOutcome where
  result : Except MessageError WebSocketResponse
  pushes : List (String × WebSocketResponse)
  registry : Registry
deriving Repr

/-- `handleMessage` from `src/services/message.service.ts`: look up the
connection (throw `Connection ... not found` when absent), build the
response `{ message: "Hello World" }`, push it to the connection, and
return it; the `catch` only logs and rethrows, so a push failure
propagates and the registry is never written on this path. -/
def handleMessage (push : PushOutcome) (registry : Registry)
    (message : WebSocketMessage) (connectionId domainName stage : String) :
    MessageOutcome :=
  match getConnection registry connectionId with
  | none =>
      { result := Except.error (MessageError.connectionNotFound connectionId),
        pushes := [], registry := registry }
  | some _ =>
    let response : WebSocketResponse := { message := "Hello World", data := none }
    match sendMessageToClient push with
    | Except.ok _ =>
        { result := Except.ok response,
          pushes := [(connectionId, response)], registry := registry }
    | Except.error err =>
        { result := Except.error err,
          pushes := [(connectionId, response)], registry := registry }

/-! ### Spec-side definitions for the extraction-precedence claim

These follow the spec's words (section 4.2): four sources tried in
order, "the first source that yields a value wins", and a no-token
outcome when none yields a value.  They are compared against
`extractTokenFromEvent`, which is translated from the source. -/

/-- Spec source (1): the designated query parameter, when it yields a
(non-empty) value. -/
def specSourceQuery (e : ApiGatewayEvent) : Option String :=
  if jsTruthy e.queryStringToken then e.queryStringToken else none

/-- Spec source (2): the same parameter in multi-valued query form,
taking a value from it (its first element, when there is one). -/
def specSourceMulti (e : ApiGatewayEvent) : Option String :=
  match e.multiValueToken with
  | some l => l.head?
  | none => none

/-- Spec source (3): a pattern match against the raw request path. -/
def specSourcePath (decodeURI : String → String) (e : ApiGatewayEvent) :
    Option String :=
  match e.requestContext with
  | some ctx =>
    match ctx.http with
    | some h =>
      match h.path with
      | some p =>
        if p != "" then (scanTokenParam p.toList).map decodeURI else none
      | none => none
    | none => none
  | none => none

/-- Spec source (4): the Authorization header, with a `Bearer ` prefix
stripped if present. -/
def specSourceHeader (e : ApiGatewayEvent) : Option String :=
  match e.authorizationHeader with
  | some h =>
    if h != "" then
      if ("Bearer ".toList).isPrefixOf h.toList then
        some (String.mk (h.toList.drop 7))
      else some h
    else none
  | none => none

/-- The extraction rule as the spec words it: the first source that
yields a value wins; `none` when none yields a value. -/
def extractTokenSpec (decodeURI : String → String) (e : ApiGatewayEvent) :
    Option String :=
  specSourceQuery e <|> specSourceMulti e <|> specSourcePath decodeURI e
    <|> specSourceHeader e

/-- The extraction rule amended to match the code: a *present*
multi-valued `token` parameter short-circuits the cascade with its
first element even when the array is empty (in which case the result is
a no-token outcome, regardless of later sources). -/
def extractTokenAmended (decodeURI : String → String) (e : ApiGatewayEvent) :
    Option String :=
  match specSourceQuery e with
  | some t => some t
  | none =>
    match e.multiValueToken with
    | some l => l.head?
    | none => specSourcePath decodeURI e <|> specSourceHeader e

/-! ### Concrete instances used by witnesses and counterexamples -/

/-- A concrete configuration. -/
def cfgEx : Config :=
  { connectionsTable := "ConnectionsTable", connectionTtl := 7200,
    region := "us-east-1", userPoolId := "pool" }

/-- A concrete signing key. -/
def keyEx : Jwk := { kid := "k1", pem := "PEM1" }

/-- A concrete valid payload: issued by the configured provider,
expiring at time 2000. -/
def payloadEx : TokenPayload :=
  { iss := issuerUrl cfgEx, sub := "user1", username := "user1",
    email := "u@example.com", exp := 2000 }

/-- A well-formed decoded token signed by `keyEx`. -/
def decodedEx : DecodedToken :=
  { kid := some "k1", alg := "RS256", payload := payloadEx, sigPem := "PEM1" }

/-- A decoded token whose key-id matches nothing in the cached set. -/
def decodedMissEx : DecodedToken :=
  { kid := some "rotated", alg := "RS256", payload := payloadEx, sigPem := "PEM1" }

/-- A concrete `jwt.decode`: decodes the wire string `"tok"` to
`decodedEx` and everything else to `null`. -/
def decodeEx : String → Option DecodedToken :=
  fun s => if s = "tok" then some decodedEx else none

/-- A concrete `jwt.decode` mapping `"tok"` to the rotated-kid token. -/
def decodeMissEx : String → Option DecodedToken :=
  fun s => if s = "tok" then some decodedMissEx else none

/-- A fresh cache state holding `keyEx`, fetched at time 900. -/
def stateEx : JwksState :=
  { cache := some { keys := [keyEx], timestamp := 900 }, fetchCount := 0 }

/-- A connect event carrying the token in the query parameter. -/
def evTokenEx : ApiGatewayEvent :=
  { queryStringToken := some "tok", multiValueToken := none,
    requestContext := some { connectionId := "c1", domainName := some "dom",
                             stage := some "stg", http := none },
    authorizationHeader := none }

/-- A connect event carrying no token anywhere. -/
def evNoTokenEx : ApiGatewayEvent :=
  { queryStringToken := none, multiValueToken := none,
    requestContext := some { connectionId := "c1", domainName := some "dom",
                             stage := some "stg", http := none },
    authorizationHeader := none }

/-- An event with a present-but-empty multi-valued `token` parameter and
a Bearer Authorization header. -/
def evMultiEmptyEx : ApiGatewayEvent :=
  { queryStringToken := none, multiValueToken := some [],
    requestContext := none, authorizationHeader := some "Bearer abc" }

/-- A registry record for connection id `"c1"`. -/
def recEx : ConnectionRecord :=
  { connectionId := "c1", domainName := some "dom", stage := some "stg",
    timestamp := 0, userId := "user1", userEmail := "u@example.com",
    isAuthenticated := true }

/-- A registry holding exactly `recEx`. -/
def regEx : Registry := [recEx]

/-- A concrete inbound message with action `"message"`. -/
def msgEx : WebSocketMessage := { action := "message", data := some "{}" }

/-! ## Theorems -/

/-- C8: `getJwks` returns the cached key set without fetching whenever
`now - fetchedAt < TTL` (TTL = 24 h = 86400000 ms); when the cache is
absent or expired it performs exactly one refetch, replaces the cached
set on success and updates the timestamp to the refetch time, so an
immediately following call within the TTL does not fetch again. -/
theorem getJwks_cache_policy (fetch : FetchOutcome) (now : Nat) (s : JwksState) :
    JWKS_CACHE_TTL = 86400000 ∧
    (∀ c, s.cache = some c → now - c.timestamp < JWKS_CACHE_TTL →
      getJwks fetch now s = (Except.ok c.keys, s)) ∧
    (∀ keys, fetch = FetchOutcome.success keys →
      (s.cache = none ∨ ∃ c, s.cache = some c ∧ JWKS_CACHE_TTL ≤ now - c.timestamp) →
      getJwks fetch now s =
        (Except.ok keys,
          { cache := some { keys := keys, timestamp := now },
            fetchCount := s.fetchCount + 1 }) ∧
      ∀ fetch2 now2, now2 - now < JWKS_CACHE_TTL →
        getJwks fetch2 now2
            { cache := some { keys := keys, timestamp := now },
              fetchCount := s.fetchCount + 1 } =
          (Except.ok keys,
            { cache := some { keys := keys, timestamp := now },
              fetchCount := s.fetchCount + 1 })) := by
  refine ⟨rfl, ?_, ?_⟩
  · intro c hc hlt
    simp [getJwks, hc, hlt]
  · intro keys hf hcache
    subst hf
    refine ⟨?_, ?_⟩
    · rcases hcache with h | ⟨c, hc, hge⟩
      · simp [getJwks, h, getJwksFetch]
      · simp [getJwks, hc, getJwksFetch, Nat.not_lt.mpr hge]
    · intro fetch2 now2 hlt
      simp [getJwks, hlt]

/-- Witness for C8: a cold-start call at time 500 fetches once and
caches; a second call at time 600 (within the TTL) returns the cached
keys without touching the fetch counter. -/
theorem getJwks_cache_policy_witness :
    getJwks (FetchOutcome.success [keyEx]) 500 { cache := none, fetchCount := 0 } =
      (Except.ok [keyEx],
        { cache := some { keys := [keyEx], timestamp := 500 }, fetchCount := 1 }) ∧
    getJwks FetchOutcome.failure 600
        { cache := some { keys := [keyEx], timestamp := 500 }, fetchCount := 1 } =
      (Except.ok [keyEx],
        { cache := some { keys := [keyEx], timestamp := 500 }, fetchCount := 1 }) := by
  have h := (getJwks_cache_policy (FetchOutcome.success [keyEx]) 500
    { cache := none, fetchCount := 0 }).2.2 [keyEx] rfl (Or.inl rfl)
  exact ⟨h.1, h.2 FetchOutcome.failure 600 (by decide)⟩

/-- Counterexample for C3: at time `JWKS_CACHE_TTL` the cache fetched at
time 0 is stale but present; a failing refetch nevertheless surfaces the
hard `KeyFetchError` (`"Failed to retrieve JWKS"`) instead of returning
the stale cached set, refuting the claimed soft-fail. -/
theorem getJwks_stale_cache_not_returned :
    (getJwks FetchOutcome.failure JWKS_CACHE_TTL
        { cache := some { keys := [keyEx], timestamp := 0 }, fetchCount := 0 }).1 =
      Except.error "Failed to retrieve JWKS" ∧
    ({ cache := some { keys := [keyEx], timestamp := 0 },
       fetchCount := 0 } : JwksState).cache =
      some { keys := [keyEx], timestamp := 0 } :=
  ⟨rfl, rfl⟩

/-- C3 amended: whenever the cache is absent or expired and the refetch
fails, `getJwks` surfaces the hard failure `"Failed to retrieve JWKS"`
even when a stale cached set exists; the stale cache object is retained
in memory (the state's `cache` field is unchanged) but never returned. -/
theorem getJwks_fetch_failure_always_hard (now : Nat) (s : JwksState)
    (h : ∀ c, s.cache = some c → JWKS_CACHE_TTL ≤ now - c.timestamp) :
    getJwks FetchOutcome.failure now s =
      (Except.error "Failed to retrieve JWKS",
        { s with fetchCount := s.fetchCount + 1 }) := by
  cases hc : s.cache with
  | none => simp [getJwks, hc, getJwksFetch]
  | some c => simp [getJwks, hc, getJwksFetch, Nat.not_lt.mpr (h c hc)]

/-- Witness for the amended C3: the stale-cache state of the
counterexample, run through the amended theorem. -/
theorem getJwks_fetch_failure_always_hard_witness :
    getJwks FetchOutcome.failure JWKS_CACHE_TTL
        { cache := some { keys := [keyEx], timestamp := 0 }, fetchCount := 0 } =
      (Except.error "Failed to retrieve JWKS",
        { cache := some { keys := [keyEx], timestamp := 0 }, fetchCount := 1 }) := by
  have h := getJwks_fetch_failure_always_hard JWKS_CACHE_TTL
    { cache := some { keys := [keyEx], timestamp := 0 }, fetchCount := 0 }
    (by intro c hc; cases hc; decide)
  exact h

/-- Counterexample for C2: with a *fresh* cached key set (fetched at
900, consulted at 1000) that lacks the token's key-id, `validateToken`
reports the key-not-found error straight from the cached set with zero
refetches (the fetch counter stays 0, not 1): there is no rotation
re-fetch on a key-id miss. -/
theorem validateToken_keyMiss_zero_fetch_cex :
    (validateToken cfgEx decodeMissEx FetchOutcome.failure 1000 stateEx "tok").1 =
      Except.error "Invalid token: No matching key found in JWKS" ∧
    (validateToken cfgEx decodeMissEx FetchOutcome.failure 1000 stateEx "tok").2.fetchCount = 0 ∧
    (validateToken cfgEx decodeMissEx FetchOutcome.failure 1000 stateEx "tok").2.fetchCount ≠
      stateEx.fetchCount + 1 :=
  ⟨rfl, rfl, by decide⟩

/-- C2 amended: on a key-id miss against a fresh cached key set,
`validateToken` reports `KeyNotFound` from the cached set alone, with
zero refetches and the cache state unchanged; a fetch happens only when
the cache is absent or expired (which is `getJwks`'s TTL policy, not a
rotation-tolerant forced refetch). -/
theorem validateToken_keyMiss_no_refetch (cfg : Config)
    (decode : String → Option DecodedToken) (fetch : FetchOutcome) (now : Nat)
    (s : JwksState) (t : String) (d : DecodedToken) (keyId : String) (c : JwksCache)
    (ht : t ≠ "") (hd : decode t = some d) (hk : d.kid = some keyId)
    (hc : s.cache = some c) (hfresh : now - c.timestamp < JWKS_CACHE_TTL)
    (hmiss : c.keys.find? (fun k => k.kid == keyId) = none) :
    validateToken cfg decode fetch now s t =
      (Except.error "Invalid token: No matching key found in JWKS", s) := by
  simp [validateToken, ht, hd, hk, getJwks, hc, hfresh, hmiss]

/-- Witness for the amended C2: the concrete fresh-cache key-miss
input, run through the amended theorem. -/
theorem validateToken_keyMiss_no_refetch_witness :
    validateToken cfgEx decodeMissEx FetchOutcome.failure 1000 stateEx "tok" =
      (Except.error "Invalid token: No matching key found in JWKS", stateEx) := by
  exact validateToken_keyMiss_no_refetch cfgEx decodeMissEx FetchOutcome.failure
    1000 stateEx "tok" decodedMissEx "rotated" { keys := [keyEx], timestamp := 900 }
    (by decide) rfl rfl rfl (by decide) (by decide)

/-- Acceptance conditions encoded in the model of
`jwt.verify(token, pem, { issuer, algorithms: ["RS256"] })`. -/
theorem jwtVerify_ok_conditions (d : DecodedToken) (pem issuer : String)
    (now : Nat) (payload : TokenPayload)
    (h : jwtVerify d pem issuer now = Except.ok payload) :
    d.alg = "RS256" ∧ d.sigPem = pem ∧ now < d.payload.exp ∧
    d.payload.iss = issuer ∧ payload = d.payload := by
  unfold jwtVerify at h
  split_ifs at h with h1 h2 h3 h4
  exact ⟨by simpa using h1, by simpa using h2,
    Nat.lt_of_not_le (by simpa using h3), by simpa using h4,
    by cases h; rfl⟩

/-- C9: `validateToken` accepts a token only if its algorithm is the
fixed RS256, its signature verifies under the key matching its key-id
in the key set `getJwks` returned, its expiry has not passed and its
issuer exactly equals the configured provider URL (soundness); and for
every well-formed, unexpired, correctly-signed token whose key-id is in
the (fresh) cached key set, it succeeds and the returned claims'
issuer matches the configured provider (completeness). -/
theorem validateToken_accept_characterization (cfg : Config)
    (decode : String → Option DecodedToken) (fetch : FetchOutcome) (now : Nat)
    (s : JwksState) (t : String) :
    (∀ payload, (validateToken cfg decode fetch now s t).1 = Except.ok payload →
      payload.iss = issuerUrl cfg ∧ now < payload.exp ∧
      ∃ d, decode t = some d ∧ d.alg = "RS256" ∧ d.payload = payload ∧
        ∃ keyId, d.kid = some keyId ∧
          ∃ jwks s2, getJwks fetch now s = (Except.ok jwks, s2) ∧
            ∃ k, jwks.find? (fun x => x.kid == keyId) = some k ∧
              d.sigPem = k.pem) ∧
    (∀ d keyId c k, t ≠ "" → decode t = some d → d.kid = some keyId →
      s.cache = some c → now - c.timestamp < JWKS_CACHE_TTL →
      c.keys.find? (fun x => x.kid == keyId) = some k →
      d.alg = "RS256" → d.sigPem = k.pem → now < d.payload.exp →
      d.payload.iss = issuerUrl cfg →
      (validateToken cfg decode fetch now s t).1 = Except.ok d.payload ∧
      d.payload.iss = issuerUrl cfg) := by
  constructor
  · intro payload h
    by_cases ht : t = ""
    · simp [validateToken, ht] at h
    · rcases hdec : decode t with _ | d
      · simp [validateToken, ht, hdec] at h
      · rcases hkid : d.kid with _ | keyId
        · simp [validateToken, ht, hdec, hkid] at h
        · rcases hj : getJwks fetch now s with ⟨res, s2⟩
          rcases res with msg | jwks
          · simp [validateToken, ht, hdec, hkid, hj] at h
          · rcases hfind : jwks.find? (fun x => x.kid == keyId) with _ | k
            · simp [validateToken, ht, hdec, hkid, hj, hfind] at h
            · rcases hv : jwtVerify d k.pem (issuerUrl cfg) now with m | verified
              · simp [validateToken, ht, hdec, hkid, hj, hfind, hv] at h
              · simp [validateToken, ht, hdec, hkid, hj, hfind, hv] at h
                obtain ⟨halg, hsig, hexp, hiss, hpay⟩ :=
                  jwtVerify_ok_conditions d k.pem (issuerUrl cfg) now verified hv
                subst h
                subst hpay
                exact ⟨hiss, hexp, d, rfl, halg, rfl, keyId, hkid,
                  jwks, s2, rfl, k, hfind, hsig⟩
  · intro d keyId c k ht hd hk hc hfresh hfind halg hsig hexp hiss
    refine ⟨?_, hiss⟩
    simp [validateToken, ht, hd, hk, getJwks, hc, hfresh, hfind, jwtVerify,
      halg, hsig, hiss, Nat.not_le.mpr hexp]

/-- Witness for C9: the concrete valid token `"tok"` (RS256, signed by
the cached key `k1`, expiring at 2000, issued by the configured
provider) validated at time 1000 against the fresh cache. -/
theorem validateToken_accept_witness :
    (validateToken cfgEx decodeEx FetchOutcome.failure 1000 stateEx "tok").1 =
      Except.ok payloadEx ∧ payloadEx.iss = issuerUrl cfgEx := by
  have h := (validateToken_accept_characterization cfgEx decodeEx
      FetchOutcome.failure 1000 stateEx "tok").2 decodedEx "k1"
      { keys := [keyEx], timestamp := 900 } keyEx
      (by decide) rfl rfl rfl (by decide) (by decide) rfl rfl (by decide) rfl
  exact h

/-- C5: `authenticateConnection` is a total function into `AuthResult`
(it never throws): with no extractable token (absent or empty) it
returns `authenticated = false` with the no-token error; when
validation throws it returns `authenticated = false` with the thrown
error's message (falling back to `"Authentication failed"` for an empty
message); and on success it returns `authenticated = true` with the
claims - so the caller can always turn the result into a
protocol-level close. -/
theorem authenticateConnection_total_result (cfg : Config)
    (decode : String → Option DecodedToken) (decodeURI : String → String)
    (fetch : FetchOutcome) (now : Nat) (s : JwksState) (e : ApiGatewayEvent) :
    (jsTruthy (extractTokenFromEvent decodeURI e) = false →
      (authenticateConnection cfg decode decodeURI fetch now s e).1 =
        { authenticated := false, user := none,
          error := some "No authentication token provided" }) ∧
    (∀ t msg, extractTokenFromEvent decodeURI e = some t → t ≠ "" →
      (validateToken cfg decode fetch now s t).1 = Except.error msg →
      (authenticateConnection cfg decode decodeURI fetch now s e).1 =
        { authenticated := false, user := none,
          error := some (if msg = "" then "Authentication failed" else msg) }) ∧
    (∀ t payload, extractTokenFromEvent decodeURI e = some t → t ≠ "" →
      (validateToken cfg decode fetch now s t).1 = Except.ok payload →
      (authenticateConnection cfg decode decodeURI fetch now s e).1 =
        { authenticated := true, user := some payload, error := none }) := by
  refine ⟨?_, ?_, ?_⟩
  · intro hft
    rcases hx : extractTokenFromEvent decodeURI e with _ | t
    · simp [authenticateConnection, hx]
    · rw [hx] at hft
      have ht : t = "" := by
        by_contra hne
        simp [jsTruthy, hne] at hft
      subst ht
      simp [authenticateConnection, hx]
  · intro t msg hx ht hv
    rcases hp : validateToken cfg decode fetch now s t with ⟨res, s2⟩
    rw [hp] at hv
    simp only at hv
    subst hv
    simp [authenticateConnection, hx, ht, hp]
  · intro t payload hx ht hv
    rcases hp : validateToken cfg decode fetch now s t with ⟨res, s2⟩
    rw [hp] at hv
    simp only at hv
    subst hv
    simp [authenticateConnection, hx, ht, hp]

/-- Witness for C5: the no-token event yields the no-token failure, and
the event whose token's key-id misses the cached set yields
`authenticated = false` carrying the thrown message. -/
theorem authenticateConnection_total_result_witness :
    (authenticateConnection cfgEx decodeEx id FetchOutcome.failure 1000 stateEx
        evNoTokenEx).1 =
      { authenticated := false, user := none,
        error := some "No authentication token provided" } ∧
    (authenticateConnection cfgEx decodeMissEx id FetchOutcome.failure 1000 stateEx
        evTokenEx).1 =
      { authenticated := false, user := none,
        error := some "Invalid token: No matching key found in JWKS" } := by
  constructor
  · exact (authenticateConnection_total_result cfgEx decodeEx id
      FetchOutcome.failure 1000 stateEx evNoTokenEx).1 (by decide)
  · have h := (authenticateConnection_total_result cfgEx decodeMissEx id
      FetchOutcome.failure 1000 stateEx evTokenEx).2.1 "tok"
      "Invalid token: No matching key found in JWKS" rfl (by decide) rfl
    simpa using h

/-- C1: the `$connect` handler performs zero registry writes whenever
authentication fails, and every connection record it ever hands to the
registry's put operation carries `isAuthenticated = true`; a record with
`isAuthenticated = false` is never written. -/
theorem connect_persists_only_authenticated (cfg : Config)
    (decode : String → Option DecodedToken) (decodeURI : String → String)
    (fetch : FetchOutcome) (now : Nat) (s : JwksState) (saveOk : Bool)
    (e : ApiGatewayEvent) :
    ((authenticateConnection cfg decode decodeURI fetch now s e).1.authenticated = false →
      (connectHandler cfg decode decodeURI fetch now s saveOk e).1.writes = []) ∧
    (∀ r ∈ (connectHandler cfg decode decodeURI fetch now s saveOk e).1.writes,
      r.isAuthenticated = true) := by
  rcases hx : extractConnectionInfo e with _ | info
  · constructor
    · intro _
      simp [connectHandler, hx]
    · intro r hr
      simp [connectHandler, hx] at hr
  · rcases ha : authenticateConnection cfg decode decodeURI fetch now s e with ⟨auth, s2⟩
    rcases hb : auth.authenticated with _ | _
    · constructor
      · intro _
        simp [connectHandler, hx, ha, hb]
      · intro r hr
        simp [connectHandler, hx, ha, hb] at hr
    · constructor
      · intro hfalse
        simp at hfalse
      · intro r hr
        rcases hu : auth.user with _ | payload
        · simp [connectHandler, hx, ha, hb, hu] at hr
        · rcases saveOk with _ | _ <;>
            · simp [connectHandler, hx, ha, hb, hu] at hr
              subst hr
              rfl

/-- Witness for C1: connecting with no token writes nothing, and a
successful connect writes only an `isAuthenticated = true` record. -/
theorem connect_persists_only_authenticated_witness :
    (connectHandler cfgEx decodeEx id FetchOutcome.failure 1000 stateEx true
        evNoTokenEx).1.writes = [] ∧
    ∀ r ∈ (connectHandler cfgEx decodeEx id FetchOutcome.failure 1000 stateEx true
        evTokenEx).1.writes, r.isAuthenticated = true := by
  constructor
  · exact (connect_persists_only_authenticated cfgEx decodeEx id
      FetchOutcome.failure 1000 stateEx true evNoTokenEx).1 (by decide)
  · exact (connect_persists_only_authenticated cfgEx decodeEx id
      FetchOutcome.failure 1000 stateEx true evTokenEx).2

/-- Counterexample for C6: an event whose multi-valued `token` query
parameter is present but empty and whose Authorization header carries
`Bearer abc`.  The spec's rule ("the first source that yields a value
wins") would extract `"abc"` from the header, but the code
short-circuits on the present multi-valued parameter (a JavaScript
array is truthy even when empty) and returns a no-token outcome. -/
theorem extractTokenFromEvent_precedence_cex :
    extractTokenFromEvent id evMultiEmptyEx = none ∧
    extractTokenSpec id evMultiEmptyEx = some "abc" ∧
    extractTokenFromEvent id evMultiEmptyEx ≠ extractTokenSpec id evMultiEmptyEx := by
  have h1 : extractTokenFromEvent id evMultiEmptyEx = none := rfl
  have h2 : extractTokenSpec id evMultiEmptyEx = some "abc" := rfl
  refine ⟨h1, h2, ?_⟩
  rw [h1, h2]
  simp

/-- C6 amended: extraction follows the spec's precedence (query
parameter, multi-valued query form, path pattern, Authorization header
with `Bearer ` stripped; `none`, not an error, when nothing yields),
except that a *present* multi-valued `token` parameter short-circuits
the cascade with its first element - when that array is empty the
result is the no-token outcome even if a later source would have
yielded a value. -/
theorem extractTokenFromEvent_amended_precedence (decodeURI : String → String)
    (e : ApiGatewayEvent) :
    extractTokenFromEvent decodeURI e = extractTokenAmended decodeURI e := by
  obtain ⟨q, mv, rc, ah⟩ := e
  rcases hq : jsTruthy q with _ | _
  · rcases mv with _ | l
    · rcases rc with _ | ⟨cid, dn, st, http⟩
      · simp [extractTokenFromEvent, extractTokenAmended, specSourceQuery,
          specSourcePath, specSourceHeader, extractFromHeader, hq]
      · rcases http with _ | ⟨path⟩
        · simp [extractTokenFromEvent, extractTokenAmended, specSourceQuery,
            specSourcePath, specSourceHeader, extractFromHeader, hq]
        · rcases path with _ | p
          · simp [extractTokenFromEvent, extractTokenAmended, specSourceQuery,
              specSourcePath, specSourceHeader, extractFromHeader, hq]
          · by_cases hp : p = ""
            · simp [extractTokenFromEvent, extractTokenAmended, specSourceQuery,
                specSourcePath, specSourceHeader, extractFromHeader, hq, hp]
            · rcases hscan : scanTokenParam p.data with _ | cap <;>
                simp [extractTokenFromEvent, extractTokenAmended, specSourceQuery,
                  specSourcePath, specSourceHeader, extractFromHeader,
                  String.toList, hq, hp, hscan]
    · simp [extractTokenFromEvent, extractTokenAmended, specSourceQuery, hq]
  · rcases q with _ | sq
    · simp [jsTruthy] at hq
    · simp [extractTokenFromEvent, extractTokenAmended, specSourceQuery, hq]

/-- C7: for any inbound message on a connection id with a registry
record, routing builds `{ message: "Hello World" }`, pushes exactly that
payload to the connection, and returns the identical response to the
caller (dual delivery); with no registry record it fails with the
connection-not-found error and pushes nothing. -/
theorem handleMessage_dual_delivery (push : PushOutcome) (reg : Registry)
    (msg : WebSocketMessage) (cid domainName stage : String) :
    (∀ rec, getConnection reg cid = some rec → push = PushOutcome.delivered →
      handleMessage push reg msg cid domainName stage =
        { result := Except.ok { message := "Hello World", data := none },
          pushes := [(cid, { message := "Hello World", data := none })],
          registry := reg }) ∧
    (getConnection reg cid = none →
      (handleMessage push reg msg cid domainName stage).result =
        Except.error (MessageError.connectionNotFound cid) ∧
      (handleMessage push reg msg cid domainName stage).pushes = []) := by
  constructor
  · intro rec hrec hpush
    subst hpush
    simp [handleMessage, hrec, sendMessageToClient]
  · intro hnone
    simp [handleMessage, hnone]

/-- Witness for C7: a `"message"`-action message on the registered
connection `"c1"` with a delivering push channel. -/
theorem handleMessage_dual_delivery_witness :
    handleMessage PushOutcome.delivered regEx msgEx "c1" "dom" "stg" =
      { result := Except.ok { message := "Hello World", data := none },
        pushes := [("c1", { message := "Hello World", data := none })],
        registry := regEx } :=
  (handleMessage_dual_delivery PushOutcome.delivered regEx msgEx "c1" "dom"
    "stg").1 recEx rfl rfl

/-- C10: when the push to the connection fails for any reason, routing
throws - the caller gets no synchronous response at all (the two legs of
dual delivery are not independent) - and the registry is left unchanged
by that failure. -/
theorem handleMessage_push_failure_no_ack (push : PushOutcome) (reg : Registry)
    (msg : WebSocketMessage) (cid domainName stage : String)
    (rec : ConnectionRecord) (hrec : getConnection reg cid = some rec)
    (hfail : push ≠ PushOutcome.delivered) :
    (∃ err, (handleMessage push reg msg cid domainName stage).result =
      Except.error err) ∧
    (∀ resp, (handleMessage push reg msg cid domainName stage).result ≠
      Except.ok resp) ∧
    (handleMessage push reg msg cid domainName stage).registry = reg := by
  rcases push with _ | _ | m
  · exact absurd rfl hfail
  · refine ⟨⟨MessageError.pushGone, ?_⟩, ?_, ?_⟩ <;>
      simp [handleMessage, hrec, sendMessageToClient]
  · refine ⟨⟨MessageError.pushFailed m, ?_⟩, ?_, ?_⟩ <;>
      simp [handleMessage, hrec, sendMessageToClient]

/-- Witness for C10: a gone-reporting push on the registered connection
`"c1"`: no synchronous response, registry untouched. -/
theorem handleMessage_push_failure_no_ack_witness :
    (∃ err, (handleMessage PushOutcome.gone regEx msgEx "c1" "dom" "stg").result =
      Except.error err) ∧
    (∀ resp, (handleMessage PushOutcome.gone regEx msgEx "c1" "dom" "stg").result ≠
      Except.ok resp) ∧
    (handleMessage PushOutcome.gone regEx msgEx "c1" "dom" "stg").registry = regEx := by
  exact handleMessage_push_failure_no_ack PushOutcome.gone regEx msgEx "c1"
    "dom" "stg" recEx rfl (by simp)

/-- C4 (code evaluated at the failing input): when the push channel
reports the connection `"c1"` as Gone, the message-routing path
rethrows the error and leaves the registry record for `"c1"` in place -
no eviction of the stale record happens, although the spec requires it
(and itself records the absence of this cleanup as a gap to close). -/
theorem handleMessage_gone_leaves_record :
    (handleMessage PushOutcome.gone regEx msgEx "c1" "dom" "stg").registry = regEx ∧
    getConnection
        (handleMessage PushOutcome.gone regEx msgEx "c1" "dom" "stg").registry
        "c1" = some recEx ∧
    (handleMessage PushOutcome.gone regEx msgEx "c1" "dom" "stg").result =
      Except.error MessageError.pushGone :=
  ⟨rfl, rfl, rfl⟩

end Gateway
